import Mathlib

/-!
Verification of the dronesdk MAVLink client library.

This file gives a shallow embedding of the parts of the Python source
relevant to the spec claims: the data models (`Command`, `Battery`,
`Version`), the location projector, the heartbeat filters, the mission
download state machine, the RC channel override map, the parameter-set
retry loop, and the event bus dispatch order.  Python floats are
idealised as rationals; machine integers are `Int`/`Nat`; absent values
(`None`) are `Option`; wall-clock time in the parameter-set loop is
discretised into 100 ms ticks (one `time.sleep(0.1)` = one tick).
-/

namespace Dronesdk

/-! ## models/command.py -/

/-- Embedding of `dronesdk.models.command.Command`: one mission item.
Float-valued fields are idealised as rationals. -/
structure Command where
  seq : Int
  frame : Int
  command : Int
  current : Int
  autocontinue : Int
  param1 : ℚ
  param2 : ℚ
  param3 : ℚ
  param4 : ℚ
  x : ℚ
  y : ℚ
  z : ℚ
deriving DecidableEq, Repr

/-- Embedding of pymavlink's `MAVLink_mission_item_message` wire object:
the positional constructor fields in declaration order. -/
structure MissionItemMessage where
  target_system : Int
  target_component : Int
  seq : Int
  frame : Int
  command : Int
  current : Int
  autocontinue : Int
  param1 : ℚ
  param2 : ℚ
  param3 : ℚ
  param4 : ℚ
  x : ℚ
  y : ℚ
  z : ℚ
deriving DecidableEq, Repr

/-- Embedding of `Command.from_mavlink`: copy the twelve command fields
out of a MISSION_ITEM message. -/
def Command.from_mavlink (msg : MissionItemMessage) : Command where
  seq := msg.seq
  frame := msg.frame
  command := msg.command
  current := msg.current
  autocontinue := msg.autocontinue
  param1 := msg.param1
  param2 := msg.param2
  param3 := msg.param3
  param4 := msg.param4
  x := msg.x
  y := msg.y
  z := msg.z

/-- Embedding of `Command.to_mavlink`: build a MISSION_ITEM message with
the given target ids and the command's twelve fields. -/
def Command.to_mavlink (c : Command) (target_system target_component : Int) :
    MissionItemMessage where
  target_system := target_system
  target_component := target_component
  seq := c.seq
  frame := c.frame
  command := c.command
  current := c.current
  autocontinue := c.autocontinue
  param1 := c.param1
  param2 := c.param2
  param3 := c.param3
  param4 := c.param4
  x := c.x
  y := c.y
  z := c.z

/-! ## models/battery.py -/

/-- Embedding of `dronesdk.models.battery.Battery`. -/
structure Battery where
  voltage : Option ℚ
  current : Option ℚ
  level : Option Int
deriving DecidableEq, Repr

/-- Embedding of `Battery.from_mavlink`: voltage is unconditionally
`voltage_mv / 1000`; the `-1` sentinel maps `current_ca` and
`battery_remaining` to `none`. -/
def Battery.from_mavlink (voltage_mv current_ca battery_remaining : Int) : Battery where
  voltage := some ((voltage_mv : ℚ) / 1000)
  current := if current_ca = -1 then none else some ((current_ca : ℚ) / 100)
  level := if battery_remaining = -1 then none else some battery_remaining

/-! ## models/version.py -/

/-- Embedding of `dronesdk.models.version.Version` after `__post_init__`
has populated the four derived byte fields. -/
structure Version where
  raw_version : Option Nat
  autopilot_type : Int
  vehicle_type : Int
  major : Option Nat
  minor : Option Nat
  patch : Option Nat
  release : Option Nat
deriving DecidableEq, Repr

/-- Embedding of the `Version` constructor together with
`__post_init__`: split the raw 32-bit version into bytes, or set all
four derived fields to `none` when the raw version is unknown. -/
def Version.make (raw_version : Option Nat) (autopilot_type vehicle_type : Int) : Version :=
  match raw_version with
  | none => ⟨none, autopilot_type, vehicle_type, none, none, none, none⟩
  | some r =>
      ⟨some r, autopilot_type, vehicle_type,
        some ((r >>> 24) &&& 0xFF), some ((r >>> 16) &&& 0xFF),
        some ((r >>> 8) &&& 0xFF), some (r &&& 0xFF)⟩

/-- Embedding of `Version.is_stable`: `self.release == 255`. -/
def Version.is_stable (v : Version) : Bool :=
  v.release == some 255

/-- Embedding of `Version.release_type`: `none` when the release byte is
unknown, `"stable"` when it is 255, otherwise the entry of
`["dev", "alpha", "beta", "rc"]` selected by the top two bits. -/
def Version.release_type (v : Version) : Option String :=
  match v.release with
  | none => none
  | some r =>
      if r = 255 then some "stable"
      else some (["dev", "alpha", "beta", "rc"].getD (r >>> 6) "")

/-! ## models/status.py -/

/-- Embedding of `dronesdk.models.status.VehicleMode`. -/
structure VehicleMode where
  name : String
deriving DecidableEq, Repr

/-- Embedding of `VehicleMode.from_mavlink`. -/
def VehicleMode.from_mavlink (mode_name : String) : VehicleMode :=
  ⟨mode_name⟩

/-- Embedding of `dronesdk.models.status.SystemStatus`. -/
structure SystemStatus where
  state : String
deriving DecidableEq, Repr

/-- Embedding of `SystemStatus.from_mavlink`. -/
def SystemStatus.from_mavlink (state_name : String) : SystemStatus :=
  ⟨state_name⟩

/-! ## MAVLink enum constants used by the handlers (from pymavlink) -/

def MAV_TYPE_GCS : Int := 6
def MAV_TYPE_ONBOARD_CONTROLLER : Int := 18
def MAV_TYPE_GIMBAL : Int := 26
def MAV_TYPE_ADSB : Int := 27
def MAV_MODE_FLAG_SAFETY_ARMED : Nat := 128
def MAV_AUTOPILOT_PX4 : Int := 12

/-! ## sensors/location.py -/

/-- Fields of a GLOBAL_POSITION_INT message read by
`Locations._handle_global_position`. -/
structure GlobalPositionIntMessage where
  lat : Int
  lon : Int
  alt : Int
  relative_alt : Int
deriving DecidableEq, Repr

/-- State of `dronesdk.sensors.location.Locations`: global position,
global-relative altitude, and local NED position, all absent at start.
Observer notifications do not change this state and are not modelled. -/
structure Locations where
  lat : Option ℚ
  lon : Option ℚ
  alt : Option ℚ
  relative_alt : Option ℚ
  north : Option ℚ
  east : Option ℚ
  down : Option ℚ
deriving DecidableEq, Repr

/-- The freshly constructed `Locations` object: every field `None`. -/
def Locations.init : Locations :=
  ⟨none, none, none, none, none, none, none⟩

/-- Embedding of `Locations._handle_global_position`: always update
lat, lon and relative_alt; update alt by `msg.alt / 1000` only when alt
was already set or the raw alt field is non-zero. -/
def Locations.handle_global_position (s : Locations) (msg : GlobalPositionIntMessage) :
    Locations :=
  { s with
    lat := some ((msg.lat : ℚ) / 10000000)
    lon := some ((msg.lon : ℚ) / 10000000)
    relative_alt := some ((msg.relative_alt : ℚ) / 1000)
    alt := if s.alt.isSome ∨ msg.alt ≠ 0 then some ((msg.alt : ℚ) / 1000) else s.alt }

/-- Run the projector over a sequence of GLOBAL_POSITION_INT messages
starting from the initial state. -/
def Locations.processGlobalPositions (msgs : List GlobalPositionIntMessage) : Locations :=
  msgs.foldl Locations.handle_global_position Locations.init

/-! ## health/monitor.py -/

/-- The fields of a HEARTBEAT message read by the heartbeat handlers
(`srcSystem`/`srcComponent` are the routing header values returned by
`get_srcSystem()`/`get_srcComponent()`). -/
structure HeartbeatMessage where
  type : Int
  autopilot : Int
  base_mode : Nat
  custom_mode : Nat
  system_status : Int
  srcSystem : Int
  srcComponent : Int
deriving DecidableEq, Repr

/-- Embedding of the `state_map` lookup in
`HealthMonitor._handle_heartbeat` (`dict.get` with default "UNKNOWN");
the keys are the MAV_STATE enum values 0..7. -/
def mavStateName (system_status : Int) : String :=
  if system_status = 0 then "UNINIT"
  else if system_status = 1 then "BOOT"
  else if system_status = 2 then "CALIBRATING"
  else if system_status = 3 then "STANDBY"
  else if system_status = 4 then "ACTIVE"
  else if system_status = 5 then "CRITICAL"
  else if system_status = 6 then "EMERGENCY"
  else if system_status = 7 then "POWEROFF"
  else "UNKNOWN"

/-- The heartbeat-projected state of
`dronesdk.health.monitor.HealthMonitor`. -/
structure HealthMonitor where
  system_status : Option SystemStatus
  mode : Option VehicleMode
  armed : Option Bool
  autopilot_type : Option Int
  vehicle_type : Option Int
deriving DecidableEq, Repr

/-- The freshly constructed `HealthMonitor`: every field `None`. -/
def HealthMonitor.init : HealthMonitor :=
  ⟨none, none, none, none, none⟩

/-- Embedding of `HealthMonitor._handle_heartbeat`.  The two pymavlink
mode-name helpers are external library calls and are passed as
parameters: `px4Mode` stands for `mavutil.interpret_px4_mode` and
`modeMapping` for `mavutil.mode_mapping_bynumber` (returning `none`
when the vehicle type has no mode table, and a partial lookup table
otherwise). -/
def HealthMonitor.handle_heartbeat
    (px4Mode : Nat → Nat → String)
    (modeMapping : Int → Option (Nat → Option String))
    (s : HealthMonitor) (msg : HeartbeatMessage) : HealthMonitor :=
  if msg.type = MAV_TYPE_GCS ∨ msg.type = MAV_TYPE_GIMBAL ∨
      msg.type = MAV_TYPE_ADSB ∨ msg.type = MAV_TYPE_ONBOARD_CONTROLLER then
    s
  else
    let s1 := { s with
      autopilot_type := some msg.autopilot
      vehicle_type := some msg.type
      system_status := some (SystemStatus.from_mavlink (mavStateName msg.system_status)) }
    let new_armed := decide (msg.base_mode &&& MAV_MODE_FLAG_SAFETY_ARMED ≠ 0)
    let s2 := if s1.armed ≠ some new_armed then { s1 with armed := some new_armed } else s1
    let mode_name :=
      if msg.autopilot = MAV_AUTOPILOT_PX4 then
        px4Mode msg.base_mode msg.custom_mode
      else
        match modeMapping msg.type with
        | some mm => (mm msg.custom_mode).getD "UNKNOWN"
        | none => "UNKNOWN"
    if s2.mode = none ∨ s2.mode.map VehicleMode.name ≠ some mode_name then
      { s2 with mode := some (VehicleMode.from_mavlink mode_name) }
    else
      s2

/-! ## datalink/heartbeat.py -/

/-- State of `dronesdk.datalink.heartbeat.HeartbeatManager`.  Monotonic
time is modelled as a rational passed explicitly to the handler. -/
structure HeartbeatManager where
  timeout : ℚ
  last_heartbeat : Option ℚ
  last_heartbeat_raw : Option HeartbeatMessage
  was_connected : Bool
  target_system : Option Int
  target_component : Option Int
deriving DecidableEq, Repr

/-- The freshly constructed `HeartbeatManager` with the default 5 s
timeout. -/
def HeartbeatManager.init : HeartbeatManager :=
  ⟨5, none, none, false, none, none⟩

/-- Embedding of `HeartbeatManager.is_connected` at a given monotonic
time: a heartbeat was seen less than `timeout` seconds ago. -/
def HeartbeatManager.is_connected (s : HeartbeatManager) (now : ℚ) : Bool :=
  match s.last_heartbeat with
  | none => false
  | some t => decide (now - t < s.timeout)

/-- Embedding of `HeartbeatManager._handle_heartbeat` with the current
monotonic time passed explicitly; the `on_connect`/`on_disconnect`
callbacks only flip the `was_connected` flag in the state. -/
def HeartbeatManager.handle_heartbeat (s : HeartbeatManager) (msg : HeartbeatMessage)
    (now : ℚ) : HeartbeatManager :=
  if msg.type = MAV_TYPE_GCS ∨ msg.type = MAV_TYPE_GIMBAL ∨
      msg.type = MAV_TYPE_ADSB ∨ msg.type = MAV_TYPE_ONBOARD_CONTROLLER then
    s
  else
    let was := s.is_connected now
    let s1 := { s with last_heartbeat := some now, last_heartbeat_raw := some msg }
    let s2 :=
      if s1.target_system = none then
        { s1 with
          target_system := some msg.srcSystem
          target_component := some msg.srcComponent }
      else s1
    if ¬was ∧ s2.is_connected now then
      { s2 with was_connected := true }
    else if was ∧ ¬s2.is_connected now then
      { s2 with was_connected := false }
    else
      s2

/-! ## mission/sequence.py -/

/-- Download-related state of
`dronesdk.mission.sequence.CommandSequence`.  Egress MISSION_REQUEST
messages are returned by the handlers as the list of requested sequence
numbers (the connection is taken to be present, as
`_request_mission_item` silently drops the send otherwise). -/
structure CommandSequence where
  commands : List Command
  next_command : Int
  count : Int
  downloading : Bool
  download_complete : Bool
deriving DecidableEq, Repr

/-- The freshly constructed `CommandSequence`: no commands, count -1. -/
def CommandSequence.init : CommandSequence :=
  ⟨[], 0, -1, false, false⟩

/-- Embedding of `CommandSequence.download`: reset the list and count
and mark the download as started (the MISSION_REQUEST_LIST egress
message carries no data we track). -/
def CommandSequence.download (s : CommandSequence) : CommandSequence :=
  { s with downloading := true, download_complete := false, commands := [], count := -1 }

/-- Embedding of `CommandSequence._handle_mission_count`: record the
count and clear the list; complete immediately on count 0, otherwise
request item 0. -/
def CommandSequence.handle_mission_count (s : CommandSequence) (count : Int) :
    CommandSequence × List Int :=
  let s1 := { s with count := count, commands := [] }
  if count = 0 then
    ({ s1 with downloading := false, download_complete := true }, [])
  else
    (s1, [0])

/-- Embedding of `CommandSequence._handle_mission_item`: append the
received command, then request the next item (at index `len(commands)`)
or complete when the list has reached the count. -/
def CommandSequence.handle_mission_item (s : CommandSequence) (msg : MissionItemMessage) :
    CommandSequence × List Int :=
  let cmd := Command.from_mavlink msg
  let cmds := s.commands ++ [cmd]
  if (cmds.length : Int) < s.count then
    ({ s with commands := cmds }, [(cmds.length : Int)])
  else
    ({ s with commands := cmds, downloading := false, download_complete := true }, [])

/-- Deliver a list of MISSION_ITEM events to the handler in arrival
order, collecting the emitted MISSION_REQUEST sequence numbers. -/
def CommandSequence.processItems (s : CommandSequence) :
    List MissionItemMessage → CommandSequence × List Int
  | [] => (s, [])
  | msg :: rest =>
      let p1 := s.handle_mission_item msg
      let p2 := p1.1.processItems rest
      (p2.1, p1.2 ++ p2.2)

/-- A download run: `download()`, then a MISSION_COUNT event carrying
`count`, then the given MISSION_ITEM events, from a fresh sequence. -/
def CommandSequence.runDownload (count : Int) (items : List MissionItemMessage) :
    CommandSequence × List Int :=
  let s0 := CommandSequence.init.download
  let p1 := s0.handle_mission_count count
  let p2 := p1.1.processItems items
  (p2.1, p1.2 ++ p2.2)

/-- Embedding of `CommandSequence.clear`. -/
def CommandSequence.clear (s : CommandSequence) : CommandSequence :=
  { s with commands := [] }

/-- Embedding of `CommandSequence.add`: overwrite the command's seq
with the current length, then append. -/
def CommandSequence.add (s : CommandSequence) (cmd : Command) : CommandSequence :=
  { s with commands := s.commands ++ [{ cmd with seq := (s.commands.length : Int) }] }

/-- The position Python resolves a list index to: a negative index
counts from the end of the list. -/
def CommandSequence.resolveIndex (len : Nat) (index : Int) : Int :=
  if index < 0 then (len : Int) + index else index

/-- Embedding of `CommandSequence.__setitem__`: overwrite the command's
seq with the raw (possibly negative) index, then store it at the
Python-resolved list position.  An out-of-range index raises
IndexError, modelled as `none`, with the list unchanged. -/
def CommandSequence.setItem (s : CommandSequence) (index : Int) (cmd : Command) :
    Option CommandSequence :=
  if 0 ≤ CommandSequence.resolveIndex s.commands.length index ∧
      CommandSequence.resolveIndex s.commands.length index < (s.commands.length : Int) then
    some { s with
      commands := s.commands.set (CommandSequence.resolveIndex s.commands.length index).toNat
        { cmd with seq := index } }
  else
    none

/-- Embedding of `CommandSequence.__delitem__` at a (non-negative)
index: remove the element, then rewrite every remaining command's seq
to its position. -/
def CommandSequence.delItem (s : CommandSequence) (index : Nat) : CommandSequence :=
  { s with commands :=
      (s.commands.eraseIdx index).mapIdx fun i c => { c with seq := (i : Int) } }

/-! ## channels/override.py -/

/-- State of `dronesdk.channels.override.ChannelsOverride`: the
underlying dict (keyed by the channel number; Python stores the keys as
`str(channel)`, a bijective encoding) and the `_active` flag that gates
`_send`.  The connection is taken to be present. -/
structure ChannelsOverride where
  entries : Nat → Option Nat
  active : Bool

/-- The freshly constructed `ChannelsOverride`: empty dict, active. -/
def ChannelsOverride.init : ChannelsOverride :=
  ⟨fun _ => none, true⟩

/-- The 8 slot values built by `_send`: `[0]*8` overwritten at
`int(k)-1` for every stored key `k`; since the dict has unique keys,
slot `i` ends up as the stored value for channel `i+1`, or 0. -/
def ChannelsOverride.slots (s : ChannelsOverride) : List Nat :=
  (List.range 8).map fun i => (s.entries (i + 1)).getD 0

/-- Embedding of `ChannelsOverride._send`: one RC_CHANNELS_OVERRIDE
message carrying all 8 slots when `_active` (and the connection) is
set, nothing otherwise. -/
def ChannelsOverride.sendMessage (s : ChannelsOverride) : List (List Nat) :=
  if s.active then [s.slots] else []

/-- Remove a channel's entry from the dict. -/
def ChannelsOverride.eraseChannel (s : ChannelsOverride) (channel : Nat) : ChannelsOverride :=
  { s with entries := fun k => if k = channel then none else s.entries k }

/-- Store a channel's entry in the dict. -/
def ChannelsOverride.insertChannel (s : ChannelsOverride) (channel value : Nat) :
    ChannelsOverride :=
  { s with entries := fun k => if k = channel then some value else s.entries k }

/-- The dict mutation performed by `__setitem__`: a falsy value
(`None` or `0`) clears the key (a missing key is ignored), any other
value is stored. -/
def ChannelsOverride.mutate (s : ChannelsOverride) (channel : Nat) (value : Option Nat) :
    ChannelsOverride :=
  if value = none ∨ value = some 0 then s.eraseChannel channel
  else s.insertChannel channel (value.getD 0)

/-- Embedding of `ChannelsOverride.__setitem__`: validate the channel
number (KeyError, modelled as `none`, otherwise), apply the dict
mutation, then `_send`. -/
def ChannelsOverride.setItem (s : ChannelsOverride) (channel : Nat) (value : Option Nat) :
    Option (ChannelsOverride × List (List Nat)) :=
  if 0 < channel ∧ channel ≤ 8 then
    some (s.mutate channel value, (s.mutate channel value).sendMessage)
  else
    none

/-- Embedding of `ChannelsOverrideManager.clear`: delete and `_send`
only when the channel is present in the dict. -/
def ChannelsOverrideManager.clear (s : ChannelsOverride) (channel : Nat) :
    ChannelsOverride × List (List Nat) :=
  if s.entries channel ≠ none then
    (s.eraseChannel channel, (s.eraseChannel channel).sendMessage)
  else
    (s, [])

/-- The loop body of `set_multiple`: apply every change to the dict
(`None` clears if present, any value — including 0 — is stored raw). -/
def ChannelsOverrideManager.applyAll (s : ChannelsOverride)
    (overrides : List (Nat × Option Nat)) : ChannelsOverride :=
  overrides.foldl
    (fun acc kv =>
      match kv.2 with
      | none => acc.eraseChannel kv.1
      | some v => acc.insertChannel kv.1 v)
    s

/-- Embedding of `ChannelsOverrideManager.set_multiple`: suspend
`_active`, apply all changes, restore `_active`, then `_send` once. -/
def ChannelsOverrideManager.set_multiple (s : ChannelsOverride)
    (overrides : List (Nat × Option Nat)) : ChannelsOverride × List (List Nat) :=
  ({ ChannelsOverrideManager.applyAll { s with active := false } overrides with
      active := true },
    ({ ChannelsOverrideManager.applyAll { s with active := false } overrides with
      active := true } : ChannelsOverride).sendMessage)

/-! ## parameters/manager.py -/

/-- The retry loop of `ParameterManager.set`, on a discrete clock of
100 ms ticks.  `stored t` is the value of `self._params[name]` at tick
`t` (`none` when absent), `v32` the float32-round-tripped value being
compared against; each iteration sends PARAM_SET (the tick of each send
is collected), then — unless the retry budget is exhausted, in which
case it returns `False` right after the final send — polls the stored
value at the 10 ticks of the 1 s window, returning `True` on an exact
match, and otherwise retries. -/
def ParameterManager.setLoop (stored : Nat → Option ℚ) (v32 : ℚ) :
    Nat → Nat → Bool × List Nat
  | 0, t => (false, [t])
  | remaining + 1, t =>
      if (List.range 10).any fun i => stored (t + i) == some v32 then (true, [t])
      else
        ((ParameterManager.setLoop stored v32 remaining (t + 10)).1,
          t :: (ParameterManager.setLoop stored v32 remaining (t + 10)).2)

/-- Embedding of `ParameterManager.set` with a live connection: round
the value through 32-bit float precision (`f32` stands for the
`struct.pack`/`struct.unpack` round trip, an external library call),
then run the send/poll loop from tick 0 with the given retry budget. -/
def ParameterManager.set (f32 : ℚ → ℚ) (stored : Nat → Option ℚ) (value : ℚ)
    (retries : Nat) : Bool × List Nat :=
  ParameterManager.setLoop stored (f32 value) retries 0

/-- The mission-list invariant claimed by the spec: every command's seq
field equals its index. -/
def denselySequenced (cmds : List Command) : Prop :=
  ∀ i (h : i < cmds.length), (cmds.get ⟨i, h⟩).seq = (i : Int)

instance (cmds : List Command) : Decidable (denselySequenced cmds) :=
  Nat.decidableBallLT cmds.length _

/-- Helper: the invariant in `getElem` form. -/
lemma denselySequenced_iff (cmds : List Command) :
    denselySequenced cmds ↔ ∀ i (h : i < cmds.length), cmds[i].seq = (i : Int) := by
  unfold denselySequenced
  constructor <;> intro hh i h <;> simpa [List.get_eq_getElem] using hh i h

/-! ## core/events.py -/

/-- Embedding of `EventPriority`: HIGH = 0, NORMAL = 50, LOW = 100. -/
inductive EventPriority where
  | high
  | normal
  | low
deriving DecidableEq, Repr

/-- The numeric value of a priority (the `IntEnum` value). -/
def EventPriority.value : EventPriority → Nat
  | .high => 0
  | .normal => 50
  | .low => 100

/-- One subscription: Python identifies a subscription by its handler
object; the embedding identifies it by its registration index. -/
structure Subscription where
  id : Nat
  priority : EventPriority
deriving DecidableEq, Repr

/-- Python's `list.sort(key=lambda s: s.priority)` is a stable sort;
over the three-valued priority key a stable sort is exactly the
partition of the list into the three priority classes, each kept in
its original order, concatenated in ascending key order. -/
def sortByPriority (l : List Subscription) : List Subscription :=
  (l.filter fun s => s.priority == EventPriority.high)
    ++ (l.filter fun s => s.priority == EventPriority.normal)
    ++ (l.filter fun s => s.priority == EventPriority.low)

/-- The two message-handler indexes of `EventBus` (the attribute index
plays no role in `publish_message`).  The dict of per-type lists is a
total function with the `dict.get(type, [])` default. -/
structure EventBus where
  message_handlers : String → List Subscription
  wildcard_handlers : List Subscription

/-- The freshly constructed `EventBus`. -/
def EventBus.empty : EventBus :=
  ⟨fun _ => [], []⟩

/-- Embedding of `EventBus.subscribe_message`: append the subscription
to the per-type list, then sort that list by priority (stably). -/
def EventBus.subscribe_message (bus : EventBus) (message_type : String)
    (sub : Subscription) : EventBus :=
  { bus with
    message_handlers := fun t =>
      if t = message_type then
        sortByPriority (bus.message_handlers message_type ++ [sub])
      else
        bus.message_handlers t }

/-- Embedding of `EventBus.subscribe_all_messages`: append to the
wildcard list, then sort it by priority (stably). -/
def EventBus.subscribe_all_messages (bus : EventBus) (sub : Subscription) : EventBus :=
  { bus with
    wildcard_handlers := sortByPriority (bus.wildcard_handlers ++ [sub]) }

/-- Embedding of the dispatch order of `EventBus.publish_message`:
snapshot the per-type list and the wildcard list, concatenate, then
sort by priority (stably); handlers are then invoked in this order. -/
def EventBus.publishOrder (bus : EventBus) (message_type : String) : List Subscription :=
  sortByPriority (bus.message_handlers message_type ++ bus.wildcard_handlers)

/-- A registration step: subscribe a handler for one message type, or
for all messages, at some priority. -/
inductive RegOp where
  | message (message_type : String) (priority : EventPriority)
  | wildcard (priority : EventPriority)

/-- Replay a registration sequence against a bus, assigning
registration indexes from `next_id`. -/
def buildBusAux (bus : EventBus) (next_id : Nat) : List RegOp → EventBus
  | [] => bus
  | RegOp.message t p :: rest =>
      buildBusAux (bus.subscribe_message t ⟨next_id, p⟩) (next_id + 1) rest
  | RegOp.wildcard p :: rest =>
      buildBusAux (bus.subscribe_all_messages ⟨next_id, p⟩) (next_id + 1) rest

/-- The bus obtained by a registration sequence on a fresh bus. -/
def buildBus (ops : List RegOp) : EventBus :=
  buildBusAux EventBus.empty 0 ops

/-- The subscriptions registered for message type `t`, in registration
order, with their registration indexes. -/
def regsFor (t : String) (next_id : Nat) : List RegOp → List Subscription
  | [] => []
  | RegOp.message t2 p :: rest =>
      (if t2 = t then [⟨next_id, p⟩] else []) ++ regsFor t (next_id + 1) rest
  | RegOp.wildcard _ :: rest => regsFor t (next_id + 1) rest

/-- The wildcard subscriptions, in registration order, with their
registration indexes. -/
def wildRegs (next_id : Nat) : List RegOp → List Subscription
  | [] => []
  | RegOp.message _ _ :: rest => wildRegs (next_id + 1) rest
  | RegOp.wildcard p :: rest => ⟨next_id, p⟩ :: wildRegs (next_id + 1) rest

end Dronesdk

open Dronesdk

/-! ## Claim theorems for the data models -/

/-- C9: converting a command to a MAVLink MISSION_ITEM message and back
yields the original command, for any target system and component. -/
theorem command_mavlink_roundtrip (c : Command) (target_system target_component : Int) :
    Command.from_mavlink (c.to_mavlink target_system target_component) = c :=
  rfl

/-- C10: `Battery.from_mavlink` always sets voltage to `voltage_mv / 1000`
(never `none`), while current and level are `none` exactly when their wire
fields carry the `-1` sentinel, and otherwise carry the scaled values. -/
theorem battery_from_mavlink_sentinels (voltage_mv current_ca battery_remaining : Int) :
    (Battery.from_mavlink voltage_mv current_ca battery_remaining).voltage
        = some ((voltage_mv : ℚ) / 1000) ∧
    ((Battery.from_mavlink voltage_mv current_ca battery_remaining).current = none
        ↔ current_ca = -1) ∧
    (current_ca ≠ -1 →
      (Battery.from_mavlink voltage_mv current_ca battery_remaining).current
        = some ((current_ca : ℚ) / 100)) ∧
    ((Battery.from_mavlink voltage_mv current_ca battery_remaining).level = none
        ↔ battery_remaining = -1) ∧
    (battery_remaining ≠ -1 →
      (Battery.from_mavlink voltage_mv current_ca battery_remaining).level
        = some battery_remaining) := by
  refine ⟨rfl, ?_, ?_, ?_, ?_⟩
  · simp [Battery.from_mavlink]
  · intro h
    simp [Battery.from_mavlink, h]
  · simp [Battery.from_mavlink]
  · intro h
    simp [Battery.from_mavlink, h]

/-- C10 witness: evaluation at the concrete wire input
`(voltage_mv, current_ca, battery_remaining) = (12600, -1, 75)`. -/
theorem battery_from_mavlink_sentinels_witness :
    (Battery.from_mavlink 12600 (-1) 75).voltage = some ((12600 : ℚ) / 1000) ∧
    ((Battery.from_mavlink 12600 (-1) 75).current = none ↔ (-1 : Int) = -1) ∧
    ((-1 : Int) ≠ -1 →
      (Battery.from_mavlink 12600 (-1) 75).current = some (((-1 : Int) : ℚ) / 100)) ∧
    ((Battery.from_mavlink 12600 (-1) 75).level = none ↔ (75 : Int) = -1) ∧
    ((75 : Int) ≠ -1 → (Battery.from_mavlink 12600 (-1) 75).level = some 75) :=
  battery_from_mavlink_sentinels 12600 (-1) 75

/-- C8 counterexample: at raw version 255 the release byte is 255, where
the code returns `"stable"`, not the element `"rc"` that the claimed
formula `["dev","alpha","beta","rc"][release >> 6]` selects. -/
theorem version_release_type_stable_counterexample :
    (Version.make (some 255) 0 0).release = some 255 ∧
    (Version.make (some 255) 0 0).release_type = some "stable" ∧
    ["dev", "alpha", "beta", "rc"].getD (255 >>> 6) "" = "rc" ∧
    (Version.make (some 255) 0 0).release_type
        ≠ some (["dev", "alpha", "beta", "rc"].getD (255 >>> 6) "") := by
  refine ⟨rfl, rfl, rfl, ?_⟩
  decide

/-- C8 amended: for a version built from a known raw version word,
`is_stable` holds exactly when the release byte is 255; `release_type`
is the element of `["dev","alpha","beta","rc"]` at index `release >> 6`
when the release byte is not 255, and `"stable"` when it is. -/
theorem version_release_semantics (raw : Nat) (ap vt : Int) (r : Nat)
    (h : (Version.make (some raw) ap vt).release = some r) :
    ((Version.make (some raw) ap vt).is_stable = true ↔ r = 255) ∧
    (r ≠ 255 →
      (Version.make (some raw) ap vt).release_type
        = some (["dev", "alpha", "beta", "rc"].getD (r >>> 6) "")) ∧
    (r = 255 → (Version.make (some raw) ap vt).release_type = some "stable") := by
  have hr : (Version.make (some raw) ap vt).release = some (raw &&& 0xFF) := rfl
  rw [hr] at h
  obtain rfl : raw &&& 0xFF = r := Option.some.injEq .. ▸ h
  refine ⟨?_, ?_, ?_⟩
  · simp [Version.is_stable, Version.make]
  · intro hne
    simp [Version.release_type, Version.make, hne]
  · intro he
    simp [Version.release_type, Version.make, he]

/-- C8 amended witness: evaluation at raw version 66 (release byte 66,
top two bits 01, an alpha release). -/
theorem version_release_semantics_witness :
    ((Version.make (some 66) 0 0).is_stable = true ↔ 66 = 255) ∧
    (66 ≠ 255 →
      (Version.make (some 66) 0 0).release_type
        = some (["dev", "alpha", "beta", "rc"].getD (66 >>> 6) "")) ∧
    (66 = 255 → (Version.make (some 66) 0 0).release_type = some "stable") :=
  version_release_semantics 66 0 0 66 rfl

/-! ## Claim theorems for the location projector -/

/-- Helper: the alt component of one `_handle_global_position` step. -/
lemma handle_global_position_alt (s : Locations) (m : GlobalPositionIntMessage) :
    (s.handle_global_position m).alt =
      if s.alt.isSome ∨ m.alt ≠ 0 then some ((m.alt : ℚ) / 1000) else s.alt :=
  rfl

/-- Helper: once the projected alt is populated it stays populated. -/
lemma foldl_alt_isSome (msgs : List GlobalPositionIntMessage) (s : Locations)
    (hs : s.alt.isSome) :
    (msgs.foldl Locations.handle_global_position s).alt.isSome := by
  induction msgs generalizing s with
  | nil => exact hs
  | cons m ms ih =>
      rw [List.foldl_cons]
      exact ih _ (by rw [handle_global_position_alt, if_pos (Or.inl hs)]; rfl)

/-- Helper: starting from an absent alt, the projected alt is still
absent exactly when every message's raw alt is 0. -/
lemma foldl_alt_none_iff (msgs : List GlobalPositionIntMessage) (s : Locations)
    (hs : s.alt = none) :
    (msgs.foldl Locations.handle_global_position s).alt = none
      ↔ ∀ m ∈ msgs, m.alt = 0 := by
  induction msgs generalizing s with
  | nil => simp [hs]
  | cons m ms ih =>
      rw [List.foldl_cons]
      by_cases hm : m.alt = 0
      · have hstep : (s.handle_global_position m).alt = none := by
          rw [handle_global_position_alt, if_neg (by simp [hs, hm])]
          exact hs
        rw [ih _ hstep]
        simp [hm]
      · have hstep : (s.handle_global_position m).alt.isSome := by
          rw [handle_global_position_alt, if_pos (Or.inr hm)]
          rfl
        constructor
        · intro hnone
          have := foldl_alt_isSome ms _ hstep
          rw [hnone] at this
          exact absurd this (by simp)
        · intro hall
          exact absurd (hall m (List.mem_cons_self m ms)) hm

/-- C5: starting from a fresh `Locations`, the projected `alt` stays
`none` while every GLOBAL_POSITION_INT seen so far has raw alt 0; once
some message with non-zero raw alt has been processed, `alt` equals the
last message's raw alt divided by 1000 (so later messages update it even
when their raw alt is 0). -/
theorem locations_alt_warmup (msgs : List GlobalPositionIntMessage) :
    ((∀ m ∈ msgs, m.alt = 0) → (Locations.processGlobalPositions msgs).alt = none) ∧
    (∀ (ms : List GlobalPositionIntMessage) (m : GlobalPositionIntMessage),
      msgs = ms ++ [m] → (∃ m' ∈ msgs, m'.alt ≠ 0) →
      (Locations.processGlobalPositions msgs).alt = some ((m.alt : ℚ) / 1000)) := by
  refine ⟨(foldl_alt_none_iff msgs Locations.init rfl).mpr, ?_⟩
  rintro ms m rfl hex
  have hcond : (List.foldl Locations.handle_global_position Locations.init ms).alt.isSome
      ∨ m.alt ≠ 0 := by
    obtain ⟨m', hm', hne⟩ := hex
    rcases List.mem_append.mp hm' with hmem | hlast
    · left
      rw [Option.isSome_iff_ne_none]
      intro hnone
      exact hne ((foldl_alt_none_iff ms Locations.init rfl).mp hnone m' hmem)
    · right
      exact (List.mem_singleton.mp hlast) ▸ hne
  rw [Locations.processGlobalPositions, List.foldl_append, List.foldl_cons, List.foldl_nil,
    handle_global_position_alt, if_pos hcond]

/-- C5 witness: two all-zero-alt messages leave alt `none`; once a
message with raw alt 5000 is seen, a following message with raw alt 0
overwrites alt with 0 / 1000. -/
theorem locations_alt_warmup_witness :
    (Locations.processGlobalPositions
        [⟨1, 2, 0, 3⟩, ⟨4, 5, 0, 6⟩]).alt = none ∧
    (Locations.processGlobalPositions
        [⟨1, 2, 0, 3⟩, ⟨4, 5, 5000, 6⟩, ⟨7, 8, 0, 9⟩]).alt = some ((0 : ℚ) / 1000) :=
  ⟨(locations_alt_warmup [⟨1, 2, 0, 3⟩, ⟨4, 5, 0, 6⟩]).1 (by decide),
   (locations_alt_warmup [⟨1, 2, 0, 3⟩, ⟨4, 5, 5000, 6⟩, ⟨7, 8, 0, 9⟩]).2
     [⟨1, 2, 0, 3⟩, ⟨4, 5, 5000, 6⟩] ⟨7, 8, 0, 9⟩ rfl
     ⟨⟨4, 5, 5000, 6⟩, by decide⟩⟩

/-! ## Claim theorems for the heartbeat filters -/

/-- C7: a HEARTBEAT whose type is GCS, Gimbal, ADSB or
Onboard-Controller leaves the health monitor state (mode, armed,
system_status, autopilot_type, vehicle_type) and the heartbeat manager
state (last_heartbeat, target system/component, connection flag) fully
unchanged, hence also `is_connected`. -/
theorem heartbeat_filter_preserves_state
    (px4Mode : Nat → Nat → String) (modeMapping : Int → Option (Nat → Option String))
    (hm : HealthMonitor) (hb : HeartbeatManager) (msg : HeartbeatMessage) (now : ℚ)
    (h : msg.type = MAV_TYPE_GCS ∨ msg.type = MAV_TYPE_GIMBAL ∨
      msg.type = MAV_TYPE_ADSB ∨ msg.type = MAV_TYPE_ONBOARD_CONTROLLER) :
    HealthMonitor.handle_heartbeat px4Mode modeMapping hm msg = hm ∧
    HeartbeatManager.handle_heartbeat hb msg now = hb ∧
    (HeartbeatManager.handle_heartbeat hb msg now).is_connected now
      = hb.is_connected now := by
  have h1 : HealthMonitor.handle_heartbeat px4Mode modeMapping hm msg = hm := by
    rw [HealthMonitor.handle_heartbeat, if_pos h]
  have h2 : HeartbeatManager.handle_heartbeat hb msg now = hb := by
    rw [HeartbeatManager.handle_heartbeat, if_pos h]
  exact ⟨h1, h2, by rw [h2]⟩

/-- C7 witness: a GCS heartbeat (type 6) leaves the freshly constructed
monitor and manager states unchanged. -/
theorem heartbeat_filter_preserves_state_witness :
    HealthMonitor.handle_heartbeat (fun _ _ => "") (fun _ => none) HealthMonitor.init
        ⟨6, 3, 81, 4, 4, 255, 190⟩ = HealthMonitor.init ∧
    HeartbeatManager.handle_heartbeat HeartbeatManager.init ⟨6, 3, 81, 4, 4, 255, 190⟩ 0
        = HeartbeatManager.init ∧
    (HeartbeatManager.handle_heartbeat HeartbeatManager.init
        ⟨6, 3, 81, 4, 4, 255, 190⟩ 0).is_connected 0
      = HeartbeatManager.init.is_connected 0 :=
  heartbeat_filter_preserves_state (fun _ _ => "") (fun _ => none)
    HealthMonitor.init HeartbeatManager.init ⟨6, 3, 81, 4, 4, 255, 190⟩ 0 (Or.inl rfl)

/-! ## Claim theorems for the mission state machine -/

/-- Helper: one MISSION_ITEM step, with the branch condition exposed. -/
lemma handle_mission_item_eq (s : CommandSequence) (msg : MissionItemMessage) :
    s.handle_mission_item msg =
      if ((s.commands.length + 1 : Nat) : Int) < s.count then
        ({ s with commands := s.commands ++ [Command.from_mavlink msg] },
          [((s.commands.length + 1 : Nat) : Int)])
      else
        ({ s with
            commands := s.commands ++ [Command.from_mavlink msg]
            downloading := false
            download_complete := true }, []) := by
  rw [CommandSequence.handle_mission_item]
  simp only [List.length_append, List.length_cons, List.length_nil, Nat.zero_add]

/-- Helper: processing MISSION_ITEM events while the count has room
appends the received commands in order, emits the requests
`len+1, len+2, ...` stopping one short of the count, and completes the
download exactly when the list reaches the count. -/
lemma processItems_spec (items : List MissionItemMessage) (s : CommandSequence)
    (n : Nat) (hc : s.count = (n : Int)) (hle : s.commands.length + items.length ≤ n) :
    (s.processItems items).1.commands = s.commands ++ items.map Command.from_mavlink ∧
    (s.processItems items).2 =
      (List.range' (s.commands.length + 1)
        (if s.commands.length + items.length = n then items.length - 1
         else items.length)).map Int.ofNat ∧
    (s.processItems items).1.download_complete =
      (if s.commands.length + items.length = n ∧ 0 < items.length then true
       else s.download_complete) ∧
    (s.processItems items).1.count = s.count := by
  induction items generalizing s with
  | nil =>
      simp [CommandSequence.processItems]
  | cons msg rest ih =>
      simp only [CommandSequence.processItems, handle_mission_item_eq]
      by_cases hlt : ((s.commands.length + 1 : Nat) : Int) < s.count
      · rw [if_pos hlt]
        have hlt2 : s.commands.length + 1 < n := by
          rw [hc] at hlt
          exact_mod_cast hlt
        have hrest := ih { s with commands := s.commands ++ [Command.from_mavlink msg] }
          (by simpa using hc)
          (by simp only [List.length_append, List.length_cons, List.length_nil,
                Nat.zero_add]
              simp only [List.length_cons] at hle
              omega)
        obtain ⟨ha, hb, hd, he⟩ := hrest
        simp only [List.length_append, List.length_cons, List.length_nil,
          Nat.zero_add] at ha hb hd he
        refine ⟨?_, ?_, ?_, ?_⟩
        · rw [ha]
          simp
        · rw [hb]
          simp only [List.length_cons]
          have hsz : (if s.commands.length + (rest.length + 1) = n then rest.length + 1 - 1
              else rest.length + 1)
              = (if s.commands.length + 1 + rest.length = n then rest.length - 1
                  else rest.length) + 1 := by
            by_cases he2 : s.commands.length + 1 + rest.length = n
            · rw [if_pos (by omega), if_pos he2]
              omega
            · rw [if_neg (by omega), if_neg he2]
          rw [hsz, List.range'_succ]
          simp
        · rw [hd]
          simp only [List.length_cons]
          by_cases he2 : s.commands.length + 1 + rest.length = n
          · have hpos : 0 < rest.length := by omega
            rw [if_pos ⟨he2, hpos⟩, if_pos ⟨by omega, by omega⟩]
          · rw [if_neg (fun hh => he2 hh.1), if_neg (fun hh => he2 (by omega))]
        · exact he
      · rw [if_neg hlt]
        have hge : n ≤ s.commands.length + 1 := by
          rw [hc] at hlt
          exact_mod_cast Int.not_lt.mp hlt
        have heq : s.commands.length + 1 = n := by
          simp only [List.length_cons] at hle
          omega
        obtain rfl : rest = [] := List.length_eq_zero.mp (by
          simp only [List.length_cons] at hle
          omega)
        simp only [CommandSequence.processItems, List.length_cons, List.length_nil]
        refine ⟨by simp, ?_, ?_, trivial⟩
        · rw [if_pos (by omega)]
          simp
        · rw [if_pos ⟨by omega, by omega⟩]

/-- Helper: a download run with a non-zero count requests item 0 and
then processes the items from the reset state. -/
lemma runDownload_eq_pos (count : Int) (hne : ¬count = 0) (items : List MissionItemMessage) :
    CommandSequence.runDownload count items =
      (((⟨[], 0, count, true, false⟩ : CommandSequence).processItems items).1,
        0 :: ((⟨[], 0, count, true, false⟩ : CommandSequence).processItems items).2) := by
  simp only [CommandSequence.runDownload, CommandSequence.download, CommandSequence.init,
    CommandSequence.handle_mission_count, if_neg hne, List.singleton_append]

/-- Helper: `range n` as `0` followed by `range' 1 (n-1)`. -/
lemma range_eq_zero_cons (n : Nat) (hn : 0 < n) :
    List.range n = 0 :: List.range' 1 (n - 1) := by
  rw [List.range_eq_range']
  cases n with
  | zero => exact absurd hn (by omega)
  | succ m => rw [List.range'_succ]; simp

/-- C3: a download beginning with MISSION_COUNT `n > 0` emits
MISSION_REQUEST 0; each MISSION_ITEM triggers the request for the next
index, so after item `j` (for `j+1 < n`) the emitted requests are
`0..j+1`, and the full run emits exactly `0..n-1`, completes, and
leaves `n` commands; MISSION_COUNT 0 completes immediately with an
empty list and no requests. -/
theorem mission_download_protocol (n j : Nat) (items : List MissionItemMessage)
    (hn : 0 < n) (hlen : items.length = n) (hj : j + 1 < n) :
    (CommandSequence.runDownload (n : Int) items).2 = (List.range n).map Int.ofNat ∧
    (CommandSequence.runDownload (n : Int) items).1.download_complete = true ∧
    (CommandSequence.runDownload (n : Int) items).1.commands.length = n ∧
    (CommandSequence.runDownload (n : Int) (items.take (j + 1))).2
        = (List.range (j + 2)).map Int.ofNat ∧
    (CommandSequence.runDownload 0 []).1.download_complete = true ∧
    (CommandSequence.runDownload 0 []).1.commands = [] ∧
    (CommandSequence.runDownload 0 []).2 = [] := by
  have hne : ¬(n : Int) = 0 := by
    simpa using Nat.pos_iff_ne_zero.mp hn
  have htl : (items.take (j + 1)).length = j + 1 := by
    rw [List.length_take, hlen]
    omega
  obtain ⟨ha, hb, hd, -⟩ := processItems_spec items ⟨[], 0, (n : Int), true, false⟩ n rfl
    (by simp [hlen])
  obtain ⟨-, hb2, -, -⟩ := processItems_spec (items.take (j + 1))
    ⟨[], 0, (n : Int), true, false⟩ n rfl (by simp [htl]; omega)
  simp only [List.length_nil, Nat.zero_add, hlen, htl] at ha hb hd hb2
  simp only [if_true, true_and] at hb hd
  rw [if_pos hn] at hd
  rw [if_neg (by omega)] at hb2
  refine ⟨?_, ?_, ?_, ?_, by decide, by decide, by decide⟩
  · rw [runDownload_eq_pos _ hne, hb, range_eq_zero_cons n hn]
    simp
  · rw [runDownload_eq_pos _ hne]
    exact hd
  · rw [runDownload_eq_pos _ hne, ha]
    simp [hlen]
  · rw [runDownload_eq_pos _ hne, hb2, range_eq_zero_cons (j + 2) (by omega)]
    simp

/-- C3 witness: the spec's literal scenario, MISSION_COUNT 2 followed by
two items; requests are 0 then 1, the download completes with 2
commands, and after the first item alone the requests are 0 and 1. -/
theorem mission_download_protocol_witness :
    (CommandSequence.runDownload ((2 : Nat) : Int)
        [⟨1, 0, 0, 3, 16, 0, 1, 0, 0, 0, 0, 1, 2, 10⟩,
         ⟨1, 0, 1, 3, 16, 0, 1, 0, 0, 0, 0, 4, 5, 20⟩]).2
      = (List.range 2).map Int.ofNat ∧
    (CommandSequence.runDownload ((2 : Nat) : Int)
        [⟨1, 0, 0, 3, 16, 0, 1, 0, 0, 0, 0, 1, 2, 10⟩,
         ⟨1, 0, 1, 3, 16, 0, 1, 0, 0, 0, 0, 4, 5, 20⟩]).1.download_complete = true ∧
    (CommandSequence.runDownload ((2 : Nat) : Int)
        [⟨1, 0, 0, 3, 16, 0, 1, 0, 0, 0, 0, 1, 2, 10⟩,
         ⟨1, 0, 1, 3, 16, 0, 1, 0, 0, 0, 0, 4, 5, 20⟩]).1.commands.length = 2 ∧
    (CommandSequence.runDownload ((2 : Nat) : Int)
        ([⟨1, 0, 0, 3, 16, 0, 1, 0, 0, 0, 0, 1, 2, 10⟩,
          ⟨1, 0, 1, 3, 16, 0, 1, 0, 0, 0, 0, 4, 5, 20⟩].take (0 + 1))).2
      = (List.range (0 + 2)).map Int.ofNat ∧
    (CommandSequence.runDownload 0 []).1.download_complete = true ∧
    (CommandSequence.runDownload 0 []).1.commands = [] ∧
    (CommandSequence.runDownload 0 []).2 = [] :=
  mission_download_protocol 2 0
    [⟨1, 0, 0, 3, 16, 0, 1, 0, 0, 0, 0, 1, 2, 10⟩,
     ⟨1, 0, 1, 3, 16, 0, 1, 0, 0, 0, 0, 4, 5, 20⟩] (by decide) rfl (by decide)

/-- C1 counterexample: (a) a completed download whose single
MISSION_ITEM carries seq 7 leaves `commands[0].seq = 7`, violating
density — the item handler appends the wire command without rewriting
its seq; (b) the negative-index assignment `cmds[-1] = cmd` on a dense
one-element list succeeds, stores `seq = -1` into the last slot, and
violates density. -/
theorem mission_density_counterexample :
    (CommandSequence.runDownload 1
        [⟨0, 0, 7, 0, 0, 0, 0, 0, 0, 0, 0, 0, 0, 0⟩]).1.download_complete = true ∧
    ¬ denselySequenced (CommandSequence.runDownload 1
        [⟨0, 0, 7, 0, 0, 0, 0, 0, 0, 0, 0, 0, 0, 0⟩]).1.commands ∧
    denselySequenced
      (⟨[⟨0, 3, 16, 0, 1, 0, 0, 0, 0, 1, 2, 3⟩], 0, -1, false, false⟩ :
        CommandSequence).commands ∧
    CommandSequence.setItem
        ⟨[⟨0, 3, 16, 0, 1, 0, 0, 0, 0, 1, 2, 3⟩], 0, -1, false, false⟩ (-1)
        ⟨5, 3, 16, 0, 1, 0, 0, 0, 0, 1, 2, 3⟩
      = some ⟨[⟨-1, 3, 16, 0, 1, 0, 0, 0, 0, 1, 2, 3⟩], 0, -1, false, false⟩ ∧
    ¬ denselySequenced
      (⟨[⟨-1, 3, 16, 0, 1, 0, 0, 0, 0, 1, 2, 3⟩], 0, -1, false, false⟩ :
        CommandSequence).commands := by
  decide

/-- C1 amended: the list mutations add, index assignment at a
non-negative index, deletion and clear preserve density of the seq
fields; index assignment at a negative (Python end-relative) index
stores that negative index into the command's seq and always breaks
density; a completed download is dense provided each received
MISSION_ITEM carried a seq equal to its arrival position (as when the
vehicle answers each MISSION_REQUEST with the requested item). -/
theorem mission_seq_density (s : CommandSequence) (cmd : Command)
    (index index2 : Int) (s2 s3 : CommandSequence) (i : Nat)
    (n : Nat) (items : List MissionItemMessage)
    (hdense : denselySequenced s.commands) (hlen : items.length = n)
    (hseq : ∀ k (hk : k < items.length), (items.get ⟨k, hk⟩).seq = (k : Int))
    (hnn : 0 ≤ index) (hset : s.setItem index cmd = some s2)
    (hneg : index2 < 0) (hset2 : s.setItem index2 cmd = some s3) :
    denselySequenced (s.add cmd).commands ∧
    denselySequenced s2.commands ∧
    ¬ denselySequenced s3.commands ∧
    denselySequenced (s.delItem i).commands ∧
    denselySequenced s.clear.commands ∧
    denselySequenced (CommandSequence.runDownload (n : Int) items).1.commands := by
  rw [denselySequenced_iff] at hdense
  have hre : CommandSequence.resolveIndex s.commands.length index = index := by
    rw [CommandSequence.resolveIndex, if_neg (by omega)]
  rw [CommandSequence.setItem, hre] at hset
  have hcond : 0 ≤ index ∧ index < (s.commands.length : Int) := by
    by_contra hc
    rw [if_neg hc] at hset
    exact Option.noConfusion hset
  rw [if_pos hcond] at hset
  obtain rfl := Option.some.inj hset
  have hre2 : CommandSequence.resolveIndex s.commands.length index2
      = (s.commands.length : Int) + index2 := by
    rw [CommandSequence.resolveIndex, if_pos hneg]
  rw [CommandSequence.setItem, hre2] at hset2
  have hcond2 : 0 ≤ (s.commands.length : Int) + index2 ∧
      (s.commands.length : Int) + index2 < (s.commands.length : Int) := by
    by_contra hc
    rw [if_neg hc] at hset2
    exact Option.noConfusion hset2
  rw [if_pos hcond2] at hset2
  obtain rfl := Option.some.inj hset2
  refine ⟨?_, ?_, ?_, ?_, ?_, ?_⟩
  · rw [denselySequenced_iff]
    intro k hk
    simp only [CommandSequence.add] at hk ⊢
    simp only [List.length_append, List.length_cons, List.length_nil, Nat.zero_add] at hk
    by_cases hklt : k < s.commands.length
    · rw [List.getElem_append_left hklt]
      exact hdense k hklt
    · have hk2 : k = s.commands.length := by omega
      subst hk2
      rw [List.getElem_append_right (le_refl _)]
      simp
  · rw [denselySequenced_iff]
    intro k hk
    simp only [List.length_set] at hk
    rw [List.getElem_set]
    by_cases hik : index.toNat = k
    · rw [if_pos hik]
      show index = (k : Int)
      omega
    · rw [if_neg hik]
      exact hdense k hk
  · rw [denselySequenced_iff]
    intro hd
    have hj : ((s.commands.length : Int) + index2).toNat < s.commands.length := by omega
    have hval := hd (((s.commands.length : Int) + index2).toNat)
      (by simp only [List.length_set]; exact hj)
    simp only [List.getElem_set, if_pos rfl] at hval
    have hval2 : index2 = ((((s.commands.length : Int) + index2).toNat : Nat) : Int) := hval
    omega
  · intro k hk
    simp only [CommandSequence.delItem] at hk ⊢
    have hk2 : k < (s.commands.eraseIdx i).length := by simpa using hk
    rw [List.get_mapIdx _ _ _ hk2]
  · intro k hk
    simp [CommandSequence.clear] at hk
  · rcases Nat.eq_zero_or_pos n with hz | hpos
    · obtain rfl : items = [] := List.length_eq_zero.mp (by omega)
      subst hz
      decide
    · have hne : ¬(n : Int) = 0 := by
        simpa using Nat.pos_iff_ne_zero.mp hpos
      obtain ⟨ha, -, -, -⟩ := processItems_spec items ⟨[], 0, (n : Int), true, false⟩ n rfl
        (by simp [hlen])
      rw [denselySequenced_iff, runDownload_eq_pos _ hne]
      intro k hk
      simp only [ha, List.nil_append] at hk ⊢
      rw [List.getElem_map]
      have hkl : k < items.length := by simpa using hk
      have hs := hseq k hkl
      rw [List.get_eq_getElem] at hs
      exact hs

/-- C1 amended witness: on a dense one-element sequence, add, the
assignment `cmds[0] = cmd`, deletion, clear and an in-order download
stay dense, while the assignment `cmds[-1] = cmd` breaks density. -/
theorem mission_seq_density_witness :
    denselySequenced (((⟨[⟨0, 3, 16, 0, 1, 0, 0, 0, 0, 1, 2, 3⟩], 0, -1, false, false⟩ :
        CommandSequence).add ⟨5, 3, 16, 0, 1, 0, 0, 0, 0, 1, 2, 3⟩).commands) ∧
    denselySequenced ((⟨[⟨0, 3, 16, 0, 1, 0, 0, 0, 0, 1, 2, 3⟩], 0, -1, false, false⟩ :
        CommandSequence).commands) ∧
    ¬ denselySequenced ((⟨[⟨-1, 3, 16, 0, 1, 0, 0, 0, 0, 1, 2, 3⟩], 0, -1, false, false⟩ :
        CommandSequence).commands) ∧
    denselySequenced (((⟨[⟨0, 3, 16, 0, 1, 0, 0, 0, 0, 1, 2, 3⟩], 0, -1, false, false⟩ :
        CommandSequence).delItem 0).commands) ∧
    denselySequenced ((⟨[⟨0, 3, 16, 0, 1, 0, 0, 0, 0, 1, 2, 3⟩], 0, -1, false, false⟩ :
        CommandSequence).clear.commands) ∧
    denselySequenced (CommandSequence.runDownload ((1 : Nat) : Int)
        [⟨0, 0, 0, 3, 16, 0, 1, 0, 0, 0, 0, 1, 2, 10⟩]).1.commands :=
  mission_seq_density
    ⟨[⟨0, 3, 16, 0, 1, 0, 0, 0, 0, 1, 2, 3⟩], 0, -1, false, false⟩
    ⟨5, 3, 16, 0, 1, 0, 0, 0, 0, 1, 2, 3⟩ 0 (-1)
    ⟨[⟨0, 3, 16, 0, 1, 0, 0, 0, 0, 1, 2, 3⟩], 0, -1, false, false⟩
    ⟨[⟨-1, 3, 16, 0, 1, 0, 0, 0, 0, 1, 2, 3⟩], 0, -1, false, false⟩
    0 1 [⟨0, 0, 0, 3, 16, 0, 1, 0, 0, 0, 0, 1, 2, 10⟩]
    (by decide) rfl (by decide) (by decide) (by decide) (by decide) (by decide)

/-! ## Claim theorems for the channel overrides -/

/-- Helper: the bulk-update loop never touches the `_active` flag. -/
lemma applyAll_active (m : List (Nat × Option Nat)) (s : ChannelsOverride) :
    (ChannelsOverrideManager.applyAll s m).active = s.active := by
  induction m generalizing s with
  | nil => rfl
  | cons kv rest ih =>
      obtain ⟨c, v⟩ := kv
      cases v with
      | none => exact (ih (s.eraseChannel c)).trans rfl
      | some w => exact (ih (s.insertChannel c w)).trans rfl

/-- Helper: the bulk-update loop commutes with setting `_active`. -/
lemma applyAll_set_active (m : List (Nat × Option Nat)) (s : ChannelsOverride) (b : Bool) :
    ChannelsOverrideManager.applyAll { s with active := b } m
      = { ChannelsOverrideManager.applyAll s m with active := b } := by
  induction m generalizing s with
  | nil => rfl
  | cons kv rest ih =>
      obtain ⟨c, v⟩ := kv
      cases v with
      | none => exact ih (s.eraseChannel c)
      | some w => exact ih (s.insertChannel c w)

/-- Helper: re-setting an already-set `_active` flag is the identity. -/
lemma active_update_self (s : ChannelsOverride) (h : s.active = true) :
    { s with active := true } = s := by
  cases s
  simp_all

/-- C4: with the override object active, setting a channel (or clearing
it by writing a falsy value) sends exactly one RC_CHANNELS_OVERRIDE
whose 8 slots are the updated map with 0 in cleared/unset slots;
clearing a present channel through the manager likewise sends exactly
one; a bulk `set_multiple` applies all changes and sends exactly one,
and on an empty map `{3: 1500, 5: 1600}` yields slots
`[0,0,1500,0,1600,0,0,0]`. -/
theorem override_single_broadcast (s : ChannelsOverride) (channel channel2 : Nat)
    (value : Nat) (m : List (Nat × Option Nat))
    (hactive : s.active = true)
    (hch : 0 < channel ∧ channel ≤ 8)
    (hpresent : s.entries channel2 ≠ none)
    (_hm : ∀ p ∈ m, 0 < p.1 ∧ p.1 ≤ 8) :
    s.setItem channel (some value)
      = some (s.mutate channel (some value), [(s.mutate channel (some value)).slots]) ∧
    s.setItem channel none
      = some (s.eraseChannel channel, [(s.eraseChannel channel).slots]) ∧
    ChannelsOverrideManager.clear s channel2
      = (s.eraseChannel channel2, [(s.eraseChannel channel2).slots]) ∧
    ChannelsOverrideManager.set_multiple s m
      = (ChannelsOverrideManager.applyAll s m,
          [(ChannelsOverrideManager.applyAll s m).slots]) ∧
    (ChannelsOverrideManager.set_multiple ChannelsOverride.init
        [(3, some 1500), (5, some 1600)]).2
      = [[0, 0, 1500, 0, 1600, 0, 0, 0]] := by
  have hmut : (s.mutate channel (some value)).active = true := by
    rw [ChannelsOverride.mutate]
    split <;> exact hactive
  have herase : (s.eraseChannel channel).active = true := hactive
  have herase2 : (s.eraseChannel channel2).active = true := hactive
  refine ⟨?_, ?_, ?_, ?_, by decide⟩
  · rw [ChannelsOverride.setItem, if_pos hch, ChannelsOverride.sendMessage, if_pos hmut]
  · rw [ChannelsOverride.setItem, if_pos hch, ChannelsOverride.mutate,
      if_pos (Or.inl rfl), ChannelsOverride.sendMessage, if_pos herase]
  · rw [ChannelsOverrideManager.clear, if_pos hpresent, ChannelsOverride.sendMessage,
      if_pos herase2]
  · have hXa : (ChannelsOverrideManager.applyAll s m).active = true :=
      (applyAll_active m s).trans hactive
    rw [ChannelsOverrideManager.set_multiple, applyAll_set_active]
    generalize hg : ChannelsOverrideManager.applyAll s m = X at hXa ⊢
    cases X with
    | mk e a =>
        simp only at hXa
        subst hXa
        simp [ChannelsOverride.sendMessage]

/-- C4 witness: a map holding channel 3, active; setting channel 5,
clearing channel 3, and the spec's bulk update each send one message. -/
theorem override_single_broadcast_witness :
    (ChannelsOverride.mk (fun k => if k = 3 then some 1200 else none) true).setItem 5
        (some 1500)
      = some ((ChannelsOverride.mk (fun k => if k = 3 then some 1200 else none)
            true).mutate 5 (some 1500),
          [((ChannelsOverride.mk (fun k => if k = 3 then some 1200 else none)
            true).mutate 5 (some 1500)).slots]) ∧
    (ChannelsOverride.mk (fun k => if k = 3 then some 1200 else none) true).setItem 5 none
      = some ((ChannelsOverride.mk (fun k => if k = 3 then some 1200 else none)
            true).eraseChannel 5,
          [((ChannelsOverride.mk (fun k => if k = 3 then some 1200 else none)
            true).eraseChannel 5).slots]) ∧
    ChannelsOverrideManager.clear
        (ChannelsOverride.mk (fun k => if k = 3 then some 1200 else none) true) 3
      = ((ChannelsOverride.mk (fun k => if k = 3 then some 1200 else none)
            true).eraseChannel 3,
          [((ChannelsOverride.mk (fun k => if k = 3 then some 1200 else none)
            true).eraseChannel 3).slots]) ∧
    ChannelsOverrideManager.set_multiple
        (ChannelsOverride.mk (fun k => if k = 3 then some 1200 else none) true)
        [(3, some 1500), (5, some 1600)]
      = (ChannelsOverrideManager.applyAll
            (ChannelsOverride.mk (fun k => if k = 3 then some 1200 else none) true)
            [(3, some 1500), (5, some 1600)],
          [(ChannelsOverrideManager.applyAll
            (ChannelsOverride.mk (fun k => if k = 3 then some 1200 else none) true)
            [(3, some 1500), (5, some 1600)]).slots]) ∧
    (ChannelsOverrideManager.set_multiple ChannelsOverride.init
        [(3, some 1500), (5, some 1600)]).2
      = [[0, 0, 1500, 0, 1600, 0, 0, 0]] :=
  override_single_broadcast
    (ChannelsOverride.mk (fun k => if k = 3 then some 1200 else none) true) 5 3 1500
    [(3, some 1500), (5, some 1600)] rfl (by decide) (by decide) (by decide)

/-! ## Claim theorems for the parameter set retry loop -/

/-- Helper: when the stored value never matches, the loop returns
`false` and the sends happen at `t, t+10, ..., t+10r`. -/
lemma setLoop_never (stored : Nat → Option ℚ) (v32 : ℚ)
    (hw : ∀ t, ((List.range 10).any fun i => stored (t + i) == some v32) = false) :
    ∀ r t, ParameterManager.setLoop stored v32 r t
      = (false, (List.range (r + 1)).map fun k => t + 10 * k) := by
  intro r
  induction r with
  | zero =>
      intro t
      simp [ParameterManager.setLoop, List.range_succ]
  | succ k ih =>
      intro t
      rw [ParameterManager.setLoop, ih (t + 10)]
      rw [hw t]
      simp only [Bool.false_eq_true, if_false]
      refine Prod.ext rfl ?_
      rw [List.range_succ_eq_map (k + 1), List.map_cons, List.map_map]
      refine congrArg₂ List.cons (by omega) (List.map_congr_left fun j _ => ?_)
      simp [Function.comp]
      omega

/-- Helper: if the stored value matches at some tick inside the `r`
poll windows, the loop returns `true`. -/
lemma setLoop_hit (stored : Nat → Option ℚ) (v32 : ℚ) :
    ∀ r t, (∃ u, u < 10 * r ∧ stored (t + u) = some v32) →
      (ParameterManager.setLoop stored v32 r t).1 = true := by
  intro r
  induction r with
  | zero =>
      intro t ⟨u, hu, _⟩
      omega
  | succ k ih =>
      intro t hhit
      by_cases hany : ((List.range 10).any fun i => stored (t + i) == some v32) = true
      · rw [ParameterManager.setLoop, if_pos hany]
      · rw [ParameterManager.setLoop, if_neg hany]
        have hnone : ∀ i, i < 10 → ¬stored (t + i) = some v32 := by
          intro i hi hsi
          exact hany (List.any_eq_true.mpr ⟨i, List.mem_range.mpr hi, by simpa using hsi⟩)
        obtain ⟨u, hu, hs⟩ := hhit
        have hu10 : 10 ≤ u := by
          by_contra hlt
          exact hnone u (by omega) hs
        exact ih (t + 10)
          ⟨u - 10, by omega, by rw [show t + 10 + (u - 10) = t + u by omega]; exact hs⟩

/-- C2 counterexample: with the default 3 retries and an autopilot that
never echoes, the code sends PARAM_SET four times (at ticks 0, 10, 20,
30), not three, before returning `false`. -/
theorem param_set_retry_counterexample :
    (ParameterManager.set (fun v => v) (fun _ => none) 1 3).1 = false ∧
    (ParameterManager.set (fun v => v) (fun _ => none) 1 3).2 = [0, 10, 20, 30] ∧
    (ParameterManager.set (fun v => v) (fun _ => none) 1 3).2.length = 4 ∧
    ¬(ParameterManager.set (fun v => v) (fun _ => none) 1 3).2.length = 3 := by
  refine ⟨?_, ?_, ?_, ?_⟩ <;> decide

/-- C2 amended: with retries = 3 and a stored value that never equals
the float32 round-trip of the requested value, `set` returns `false`
without raising after exactly four PARAM_SET sends at ticks 0, 10, 20
and 30 — consecutive sends separated by the ~1 s poll window, with the
fourth send immediately before returning; and whenever the stored value
equals the float32 round-trip at some tick of the three poll windows
(ticks 0..29), `set` returns `true`. -/
theorem param_set_retry (f32 : ℚ → ℚ) (stored stored2 : Nat → Option ℚ)
    (value value2 : ℚ)
    (hnever : ∀ t, ¬stored t = some (f32 value))
    (hhit : ∃ t, t < 30 ∧ stored2 t = some (f32 value2)) :
    (ParameterManager.set f32 stored value 3).1 = false ∧
    (ParameterManager.set f32 stored value 3).2 = [0, 10, 20, 30] ∧
    (ParameterManager.set f32 stored2 value2 3).1 = true := by
  have hw : ∀ t, ((List.range 10).any fun i => stored (t + i) == some (f32 value)) = false := by
    intro t
    rw [List.any_eq_false]
    intro i _
    simpa using hnever (t + i)
  simp only [ParameterManager.set]
  rw [setLoop_never stored (f32 value) hw 3 0]
  refine ⟨rfl, by decide, ?_⟩
  obtain ⟨t, ht, hs⟩ := hhit
  exact setLoop_hit stored2 (f32 value2) 3 0 ⟨t, by omega, by simpa using hs⟩

/-- C2 witness: a never-echoing trace gives `false` with sends at ticks
0, 10, 20, 30; a trace that stores the value at tick 25 gives `true`. -/
theorem param_set_retry_witness :
    (ParameterManager.set (fun v => v) (fun _ => none) 1 3).1 = false ∧
    (ParameterManager.set (fun v => v) (fun _ => none) 1 3).2 = [0, 10, 20, 30] ∧
    (ParameterManager.set (fun v => v)
        (fun t => if t = 25 then some 2 else none) 2 3).1 = true :=
  param_set_retry (fun v => v) (fun _ => none)
    (fun t => if t = 25 then some 2 else none) 1 2
    (fun _ h => Option.noConfusion h) ⟨25, by decide, by decide⟩

/-! ## Claim theorems for the event bus dispatch order -/

/-- Helper: filtering one priority class out of another. -/
lemma filter_beq_filter_beq (l : List Subscription) (p q : EventPriority) :
    (l.filter fun s => s.priority == q).filter (fun s => s.priority == p)
      = if p = q then l.filter fun s => s.priority == p else [] := by
  induction l with
  | nil => simp
  | cons a rest ih =>
      by_cases hpq : p = q
      · subst hpq
        by_cases hap : a.priority = p
        · simp [List.filter_cons, hap, ih]
        · simp [List.filter_cons, hap, ih]
      · have hqp : ¬q = p := fun h => hpq h.symm
        by_cases haq : a.priority = q
        · have hap : ¬a.priority = p := fun h => hpq (h.symm.trans haq)
          simp [List.filter_cons, haq, hap, ih, hpq, hqp]
        · simp [List.filter_cons, haq, ih, hpq]

/-- Helper: sorting does not change a priority class. -/
lemma sortByPriority_filter (l : List Subscription) (p : EventPriority) :
    (sortByPriority l).filter (fun s => s.priority == p)
      = l.filter (fun s => s.priority == p) := by
  show ((l.filter fun s => s.priority == EventPriority.high)
      ++ (l.filter fun s => s.priority == EventPriority.normal)
      ++ (l.filter fun s => s.priority == EventPriority.low)).filter
        (fun s => s.priority == p)
    = l.filter (fun s => s.priority == p)
  rw [List.filter_append, List.filter_append, filter_beq_filter_beq,
    filter_beq_filter_beq, filter_beq_filter_beq]
  cases p <;> simp

/-- Helper: appending to an already-sorted list and re-sorting equals
sorting the raw appended list. -/
lemma sortByPriority_sort_append (l : List Subscription) (x : Subscription) :
    sortByPriority (sortByPriority l ++ [x]) = sortByPriority (l ++ [x]) := by
  show (sortByPriority l ++ [x]).filter _ ++ (sortByPriority l ++ [x]).filter _
        ++ (sortByPriority l ++ [x]).filter _
      = (l ++ [x]).filter _ ++ (l ++ [x]).filter _ ++ (l ++ [x]).filter _
  simp only [List.filter_append, sortByPriority_filter]

/-- Helper: the per-type list of a replayed bus is the sorted raw
registration list for that type. -/
lemma buildBusAux_handlers (ops : List RegOp) (bus : EventBus) (next_id : Nat)
    (t : String) (base : List Subscription)
    (hbase : bus.message_handlers t = sortByPriority base) :
    (buildBusAux bus next_id ops).message_handlers t
      = sortByPriority (base ++ regsFor t next_id ops) := by
  induction ops generalizing bus next_id base with
  | nil => simpa [buildBusAux, regsFor] using hbase
  | cons op rest ih =>
      cases op with
      | message t2 p =>
          by_cases ht : t2 = t
          · subst ht
            refine (ih (bus.subscribe_message t2 ⟨next_id, p⟩) (next_id + 1)
              (base ++ [⟨next_id, p⟩]) ?_).trans ?_
            · have hupd : (bus.subscribe_message t2 ⟨next_id, p⟩).message_handlers t2
                  = sortByPriority (bus.message_handlers t2 ++ [⟨next_id, p⟩]) := by
                simp [EventBus.subscribe_message]
              rw [hupd, hbase, sortByPriority_sort_append]
            · rw [regsFor]
              simp
          · refine (ih (bus.subscribe_message t2 ⟨next_id, p⟩) (next_id + 1) base ?_).trans ?_
            · have htt : ¬t = t2 := fun h => ht h.symm
              have hupd : (bus.subscribe_message t2 ⟨next_id, p⟩).message_handlers t
                  = bus.message_handlers t := by
                simp [EventBus.subscribe_message, htt]
              rw [hupd]
              exact hbase
            · rw [regsFor, if_neg ht]
              simp
      | wildcard p =>
          refine (ih (bus.subscribe_all_messages ⟨next_id, p⟩) (next_id + 1) base hbase).trans ?_
          rw [regsFor]

/-- Helper: the wildcard list of a replayed bus is the sorted raw
wildcard registration list. -/
lemma buildBusAux_wildcards (ops : List RegOp) (bus : EventBus) (next_id : Nat)
    (base : List Subscription)
    (hbase : bus.wildcard_handlers = sortByPriority base) :
    (buildBusAux bus next_id ops).wildcard_handlers
      = sortByPriority (base ++ wildRegs next_id ops) := by
  induction ops generalizing bus next_id base with
  | nil => simpa [buildBusAux, wildRegs] using hbase
  | cons op rest ih =>
      cases op with
      | message t2 p =>
          refine (ih (bus.subscribe_message t2 ⟨next_id, p⟩) (next_id + 1) base hbase).trans ?_
          rw [wildRegs]
      | wildcard p =>
          refine (ih (bus.subscribe_all_messages ⟨next_id, p⟩) (next_id + 1)
            (base ++ [⟨next_id, p⟩]) ?_).trans ?_
          · have hupd : (bus.subscribe_all_messages ⟨next_id, p⟩).wildcard_handlers
                = sortByPriority (bus.wildcard_handlers ++ [⟨next_id, p⟩]) := rfl
            rw [hupd, hbase, sortByPriority_sort_append]
          · rw [wildRegs]
            simp

/-- Helper: every element of a priority-class filter has that class. -/
lemma mem_filter_priority (l : List Subscription) (p : EventPriority) (a : Subscription)
    (ha : a ∈ l.filter fun s => s.priority == p) : a.priority = p := by
  simpa using (List.mem_filter.mp ha).2

/-- Helper: the stable sort output is ascending in priority value. -/
lemma sortByPriority_pairwise (l : List Subscription) :
    (sortByPriority l).Pairwise fun a b => a.priority.value ≤ b.priority.value := by
  show ((l.filter fun s => s.priority == EventPriority.high)
      ++ (l.filter fun s => s.priority == EventPriority.normal)
      ++ (l.filter fun s => s.priority == EventPriority.low)).Pairwise _
  have hsame : ∀ (p : EventPriority),
      (l.filter fun s => s.priority == p).Pairwise
        (fun a b => a.priority.value ≤ b.priority.value) := by
    intro p
    refine List.pairwise_of_forall_mem_list fun a ha b hb => ?_
    rw [mem_filter_priority l p a ha, mem_filter_priority l p b hb]
  refine List.pairwise_append.mpr ⟨List.pairwise_append.mpr ⟨hsame _, hsame _, ?_⟩,
    hsame _, ?_⟩
  · intro a ha b hb
    rw [mem_filter_priority l _ a ha, mem_filter_priority l _ b hb]
    decide
  · intro a ha b hb
    rcases List.mem_append.mp ha with ha2 | ha2 <;>
      rw [mem_filter_priority l _ a ha2, mem_filter_priority l _ b hb] <;> decide

/-- Helper: sorting the concatenation of two sorted lists interleaves
their priority classes: for each class, the first list's elements come
before the second list's, each in original order. -/
lemma sortByPriority_sorted_append (A B : List Subscription) :
    sortByPriority (sortByPriority A ++ sortByPriority B)
      = (A.filter fun s => s.priority == EventPriority.high)
        ++ (B.filter fun s => s.priority == EventPriority.high)
        ++ (A.filter fun s => s.priority == EventPriority.normal)
        ++ (B.filter fun s => s.priority == EventPriority.normal)
        ++ (A.filter fun s => s.priority == EventPriority.low)
        ++ (B.filter fun s => s.priority == EventPriority.low) := by
  show (sortByPriority A ++ sortByPriority B).filter _
        ++ (sortByPriority A ++ sortByPriority B).filter _
        ++ (sortByPriority A ++ sortByPriority B).filter _
      = _
  simp only [List.filter_append, sortByPriority_filter, List.append_assoc]

/-- C6 counterexample: a wildcard handler registered first (index 0)
and a specific handler registered second (index 1), both at NORMAL
priority, are invoked in the order specific-then-wildcard `[1, 0]`,
not in registration order `[0, 1]`. -/
theorem eventbus_registration_order_counterexample :
    ((EventBus.publishOrder
        (buildBus [RegOp.wildcard EventPriority.normal,
          RegOp.message "HEARTBEAT" EventPriority.normal]) "HEARTBEAT").map
        Subscription.id = [1, 0]) ∧
    ¬((EventBus.publishOrder
        (buildBus [RegOp.wildcard EventPriority.normal,
          RegOp.message "HEARTBEAT" EventPriority.normal]) "HEARTBEAT").map
        Subscription.id = [0, 1]) := by
  constructor <;> decide

/-- C6 amended: for any registration sequence, a publish invokes the
type's handlers together with the wildcard handlers in ascending
priority order; among handlers of equal priority, the specific-type
handlers run first and the wildcard handlers after them, each group in
registration order. -/
theorem eventbus_publish_order (ops : List RegOp) (t : String) :
    EventBus.publishOrder (buildBus ops) t
      = ((regsFor t 0 ops).filter fun s => s.priority == EventPriority.high)
        ++ ((wildRegs 0 ops).filter fun s => s.priority == EventPriority.high)
        ++ ((regsFor t 0 ops).filter fun s => s.priority == EventPriority.normal)
        ++ ((wildRegs 0 ops).filter fun s => s.priority == EventPriority.normal)
        ++ ((regsFor t 0 ops).filter fun s => s.priority == EventPriority.low)
        ++ ((wildRegs 0 ops).filter fun s => s.priority == EventPriority.low) ∧
    (EventBus.publishOrder (buildBus ops) t).Pairwise
      (fun a b => a.priority.value ≤ b.priority.value) := by
  have hmh := buildBusAux_handlers ops EventBus.empty 0 t [] rfl
  have hw := buildBusAux_wildcards ops EventBus.empty 0 [] rfl
  simp only [List.nil_append] at hmh hw
  constructor
  · show sortByPriority ((buildBusAux EventBus.empty 0 ops).message_handlers t
        ++ (buildBusAux EventBus.empty 0 ops).wildcard_handlers) = _
    rw [hmh, hw, sortByPriority_sorted_append]
  · exact sortByPriority_pairwise _
